import Mathlib

/-!
Verification development for the `loon` RAVEn(TM) smart-meter protocol engine.

The Python source (package `loon`: `formatter.py`, `parser.py`, `loon.py`,
`command.py`, `node.py`) is shallowly embedded below.  Python runtime
exceptions are modelled by an explicit error type `PyExc`, and fallible code
runs in `Except PyExc`.  Exceptions that a `try`/`except` clause of the source
catches are matched on by constructor, exactly mirroring which exception
classes each `except` clause names; an exception nobody catches surfaces as an
`Except.error` at the outermost level (in CPython it would kill the background
capture thread).

Python `dict`/`OrderedDict` values are modelled as association lists
(`List (String × _)`); `OrderedDict` insertion order is list order.
Python `int`/`long` are `Int`; Python `float` is modelled as `ℚ` (the only
float arithmetic in the source is `multiplier / divisor` rescaling of
integers well below 2^53, where binary floats are exact for the properties
stated here); `datetime` values are whole seconds since the Unix epoch
(`utctimetuple` discards sub-second precision).
-/

namespace LoonSpec

/-- Python exceptions relevant to the source: `LoonError` (the package's own
error class, defined in `loon/exception.py`), `SkipSignal`
(`formatter.SkipSignal`), and the built-in exception classes that the
source can raise or catch. -/
inductive PyExc where
  | loonError (msg : String)
  | skipSignal (msg : String)
  | keyError
  | valueError
  | indexError
  | attributeError
  | typeError (msg : String)
deriving DecidableEq, Repr

/-- Python values flowing through the codec: integers (`int`/`long`),
strings, booleans, `datetime` instants (whole seconds since the Unix epoch),
floats (as exact rationals), lists and dicts. -/
inductive Value where
  | intVal (n : Int)
  | strVal (s : String)
  | boolVal (b : Bool)
  | dateVal (secs : Int)
  | ratVal (q : ℚ)
  | listVal (vs : List Value)
  | dictVal (m : List (String × Value))

/-- Python truthiness (`if x:`): zero numbers, empty strings and empty
containers are falsy. -/
def pyTruthy : Value → Bool
  | .intVal n => n != 0
  | .strVal s => s != ""
  | .boolVal b => b
  | .dateVal _ => true
  | .ratVal q => q != 0
  | .listVal vs => !vs.isEmpty
  | .dictVal m => !m.isEmpty

/-! ### Python string and number primitives -/

/-- ASCII letter test, as used by the `[a-zA-Z]` character class of the
framing regular expressions. -/
def isAsciiAlpha (c : Char) : Bool :=
  (97 ≤ c.toNat && c.toNat ≤ 122) || (65 ≤ c.toNat && c.toNat ≤ 90)

/-- Python whitespace, for `str.strip()` and the whitespace tolerance of
`int()`/`float()`. -/
def isPySpace (c : Char) : Bool :=
  c = ' ' || c = '\t' || c = '\n' || c = '\r' || c = '\x0b' || c = '\x0c'

/-- Python `str.strip()`: drop leading and trailing whitespace. -/
def pyStrip (s : String) : String :=
  ⟨(((s.toList.dropWhile isPySpace).reverse.dropWhile isPySpace).reverse)⟩

/-- ASCII lowercasing of one character, for `str.lower()`. -/
def lowerChar (c : Char) : Char :=
  if 65 ≤ c.toNat && c.toNat ≤ 90 then Char.ofNat (c.toNat + 32) else c

/-- Python `str.lower()` (the keys here are ASCII). -/
def pyLower (s : String) : String := ⟨s.toList.map lowerChar⟩

/-- Hexadecimal digit test for `int(value, base=16)`. -/
def isHexDigitCh (c : Char) : Bool :=
  c.isDigit || (97 ≤ c.toNat && c.toNat ≤ 102) || (65 ≤ c.toNat && c.toNat ≤ 70)

/-- Numeric value of a hexadecimal digit. -/
def hexDigitVal (c : Char) : Nat :=
  if c.isDigit then c.toNat - 48
  else if 97 ≤ c.toNat && c.toNat ≤ 102 then c.toNat - 87
  else c.toNat - 55

/-- Accumulate a digit string in the given base. -/
def digitsVal (base : Nat) : List Char → Nat → Nat
  | [], acc => acc
  | c :: cs, acc => digitsVal base cs (acc * base + hexDigitVal c)

/-- Python `int(value)`: optional surrounding whitespace, optional sign,
then one or more decimal digits; anything else raises `ValueError`. -/
def pyIntBase10 (s : String) : Except PyExc Int :=
  let cs := (pyStrip s).toList
  let signed : Int × List Char :=
    match cs with
    | '+' :: r => (1, r)
    | '-' :: r => (-1, r)
    | _ => (1, cs)
  if signed.2 ≠ [] && signed.2.all Char.isDigit then
    .ok (signed.1 * (digitsVal 10 signed.2 0 : Nat))
  else
    .error .valueError

/-- Python `int(value, base=16)`: optional surrounding whitespace, optional
sign, optional `0x`/`0X` prefix, then one or more hexadecimal digits;
anything else raises `ValueError`. -/
def pyIntBase16 (s : String) : Except PyExc Int :=
  let cs := (pyStrip s).toList
  let signed : Int × List Char :=
    match cs with
    | '+' :: r => (1, r)
    | '-' :: r => (-1, r)
    | _ => (1, cs)
  let digits : List Char :=
    match signed.2 with
    | '0' :: 'x' :: r => r
    | '0' :: 'X' :: r => r
    | r => r
  if digits ≠ [] && digits.all isHexDigitCh then
    .ok (signed.1 * (digitsVal 16 digits 0 : Nat))
  else
    .error .valueError

/-- Python `hex(n)`: `0x` (or `-0x`) followed by lowercase hexadecimal
digits.  (The Python 2 `L` suffix on longs ≥ 2^63 is not modelled; no
claim evaluates `hex` there.) -/
def pyHex (n : Int) : String :=
  (if n < 0 then "-0x" else "0x") ++ ⟨Nat.toDigits 16 n.natAbs⟩

/-- Python `str(n)` for an `int`. -/
def pyIntRepr (n : Int) : String := toString n

/-- Best-effort `str(obj)`, used only inside error-message text. -/
def pyStr : Value → String
  | .intVal n => pyIntRepr n
  | .strVal s => s
  | .boolVal b => if b then "True" else "False"
  | .dateVal d => "datetime(" ++ toString d ++ ")"
  | .ratVal q => toString q.num ++ "/" ++ toString q.den
  | .listVal _ => "[...]"
  | .dictVal _ => "{...}"

/-- Python `int(obj)` on a non-string object: identity on ints, `True`/`False`
become 1/0, floats truncate toward zero, strings parse in base 10, other
objects raise `TypeError`. -/
def pyToInt : Value → Except PyExc Int
  | .intVal n => .ok n
  | .boolVal b => .ok (if b then 1 else 0)
  | .ratVal q => .ok (Int.tdiv q.num q.den)
  | .strVal s => pyIntBase10 s
  | _ => .error (.typeError "int() argument must be a string or a number")

/-- Parse a plain fixed-notation float literal (sign, digits, optional
fractional digits), for Python `float(str)`.  Exponent notation is not
modelled; no value reaching `float` in the source carries one. -/
def pyFloatOfString (s : String) : Except PyExc ℚ :=
  let cs := (pyStrip s).toList
  let signed : ℚ × List Char :=
    match cs with
    | '+' :: r => (1, r)
    | '-' :: r => (-1, r)
    | _ => (1, cs)
  let intPart := signed.2.takeWhile Char.isDigit
  let rest := signed.2.dropWhile Char.isDigit
  match rest with
  | [] =>
    if intPart ≠ [] then .ok (signed.1 * (digitsVal 10 intPart 0 : Nat)) else .error .valueError
  | '.' :: fracs =>
    if (intPart ≠ [] || fracs ≠ []) && fracs.all Char.isDigit then
      .ok (signed.1 * ((digitsVal 10 (intPart ++ fracs) 0 : Nat) / (10 ^ fracs.length : ℚ)))
    else .error .valueError
  | _ => .error .valueError

/-- Python `float(x)`: ints and bools convert exactly, strings parse,
other objects raise `TypeError`. -/
def pyFloat : Value → Except PyExc ℚ
  | .intVal n => .ok (n : ℚ)
  | .boolVal b => .ok (if b then 1 else 0)
  | .ratVal q => .ok q
  | .strVal s => pyFloatOfString s
  | _ => .error (.typeError "float() argument must be a string or a number")

/-- Python sequence indexing `xs[i]` with negative-index support, returning
`none` where Python raises `IndexError`. -/
def pyListGet {α : Type} (xs : List α) (i : Int) : Option α :=
  if 0 ≤ i then xs.get? i.toNat
  else if (-i).toNat ≤ xs.length then xs.get? (xs.length - (-i).toNat)
  else none

/-- HTML entity unescaping (`HTMLParser().unescape` in `formatter.py`, and
the entity decoding `ElementTree` performs on text).  The entities produced
by the source's own `escape` (`&amp;`, `&lt;`, `&gt;`) plus the standard
quote entity are covered; inputs in this development contain no others. -/
def unescapeChars : List Char → List Char
  | '&' :: 'a' :: 'm' :: 'p' :: ';' :: r => '&' :: unescapeChars r
  | '&' :: 'l' :: 't' :: ';' :: r => '<' :: unescapeChars r
  | '&' :: 'g' :: 't' :: ';' :: r => '>' :: unescapeChars r
  | '&' :: 'q' :: 'u' :: 'o' :: 't' :: ';' :: r => '"' :: unescapeChars r
  | c :: r => c :: unescapeChars r
  | [] => []

/-- String form of `unescapeChars`. -/
def htmlUnescape (s : String) : String := ⟨unescapeChars s.toList⟩

/-- `cgi.escape` (quote=False) as used by `formatter.escape`, and equally the
escaping `ElementTree.tostring` applies to element text: `&`, `<`, `>` become
entities. -/
def escapeChars : List Char → List Char
  | '&' :: r => '&' :: 'a' :: 'm' :: 'p' :: ';' :: escapeChars r
  | '<' :: r => '&' :: 'l' :: 't' :: ';' :: escapeChars r
  | '>' :: r => '&' :: 'g' :: 't' :: ';' :: escapeChars r
  | c :: r => c :: escapeChars r
  | [] => []

/-- String form of `escapeChars`. -/
def htmlEscape (s : String) : String := ⟨escapeChars s.toList⟩

/-! ### Field formatters (`formatter.py`)

`Formatter.__init__` stores `name`, `required`, `missing`, `skip`,
`sequence`; the numeric subclasses additionally carry an inclusive range,
`Enumeration` subclasses carry their `LEVELS` vocabulary. The per-kind
`encode`/`_parse` methods are dispatched through `Kind`. -/

/-- The concrete formatter subclass a field uses, with the associated data
each subclass carries. -/
inductive Kind where
  | str
  | intK (lo hi : Int)
  | hexK (lo hi : Int)
  | dateK
  | boolK
  | enumK (levels : List (String × String))
  | intervalK
deriving Repr

/-- One field descriptor: the constructor arguments of `Formatter.__init__`
plus the subclass dispatch. -/
structure Formatter where
  name : String
  required : Bool
  missing : Option String
  skip : Bool
  sequence : Bool
  kind : Kind
deriving Repr

/-- The two `TypeError` checks of `Formatter.__init__`: a field cannot be
required with a missing value unless it skips or aggregates, and `skip`
demands a missing value. -/
def Formatter.valid (f : Formatter) : Prop :=
  (f.required = true → f.missing.isSome → (f.skip = true ∨ f.sequence = true)) ∧
  (f.skip = true → f.missing.isSome)

/-- `Date.EPOCH`: `calendar.timegm(datetime(2000, 1, 1).utctimetuple())`,
i.e. 2000-01-01T00:00:00Z as a Unix timestamp. -/
def dateEPOCH : Int := 946684800

/-- `IntervalPeriod.INTERVALS`: the ordered interval table (seconds mapped
to their display labels). -/
def INTERVALS : List (Int × String) :=
  [(86400, "Daily"), (3600, "60 minutes"), (1800, "30 minutes"),
   (900, "15 minutes"), (600, "10 minutes"), (450, "7.5 minutes"),
   (300, "5 minutes"), (150, "2.5 minutes")]

/-- `IntervalPeriod._parse`: `INTERVALS.keys()[int(value)]` inside
`try`/`except IndexError`.  A `ValueError` from `int(value)` is not named by
the `except` clause and therefore propagates. -/
def intervalParse (value : String) : Except PyExc Value :=
  match pyIntBase10 value with
  | .error e => .error e
  | .ok i =>
    match pyListGet (INTERVALS.map Prod.fst) i with
    | some secs => .ok (.intVal secs)
    | none => .error (.loonError ("Unknown/invalid interval: " ++ value))

/-- `IntervalPeriod.encode`: the source computes
`str(IntervalPeriod.INTERVALS.index(int(obj)))`, but `INTERVALS` is an
`OrderedDict`, which has no `index` attribute, so after `int(obj)` is
evaluated the attribute access raises `AttributeError` — which the
`except IndexError` clause does not catch. -/
def intervalPeriodEncode (obj : Value) : Except PyExc String := do
  let _ ← pyToInt obj
  throw .attributeError

/-- The per-kind `_parse` methods: `Formatter._parse` unescapes, `Integer`
parses base 10, `Hex` parses base 16, `Date` adds the 2000-01-01 epoch to the
hex seconds, `Boolean` indexes `_MAP` (raising `KeyError` on any other
token), `Enumeration._parse` takes `LEVELS.values().index(value)` — whose
`except IndexError` clause does not catch the `ValueError` that `list.index`
raises on an absent token, so that `ValueError` propagates — and
`IntervalPeriod` indexes the interval table. -/
def fmtParseOne (f : Formatter) (value : String) : Except PyExc Value :=
  match f.kind with
  | .str => .ok (.strVal (htmlUnescape value))
  | .intK _ _ => (pyIntBase10 value).map .intVal
  | .hexK _ _ => (pyIntBase16 value).map .intVal
  | .dateK => (pyIntBase16 value).map (fun n => .dateVal (n + dateEPOCH))
  | .boolK =>
    if value = "Y" then .ok (.boolVal true)
    else if value = "N" then .ok (.boolVal false)
    else .error .keyError
  | .enumK levels =>
    match (levels.map Prod.snd).findIdx? (fun t => t = value) with
    | some i => .ok (.intVal i)
    | none => .error .valueError
  | .intervalK => intervalParse value

/-- The per-kind `encode` methods.  `Formatter.encode` HTML-escapes the
string form; `Integer`/`Hex` check the inclusive range and render decimal
or `hex()` text, raising `LoonError` outside the range; `Date` encodes
`timegm(obj.utctimetuple()) - EPOCH` through `Hex` with range
`(0, 0xffffffff)`; `Boolean` maps truthiness to `Y`/`N`;
`Enumeration.encode` accepts an int ordinal (indexing `LEVELS.values()`)
or a symbolic key (indexing `LEVELS`), turning `IndexError`/`KeyError`
into `LoonError`; `IntervalPeriod.encode` is `intervalPeriodEncode`. -/
def fmtEncode (f : Formatter) (v : Value) : Except PyExc String :=
  match f.kind with
  | .str => .ok (htmlEscape (pyStr v))
  | .intK lo hi =>
    match v with
    | .intVal n =>
      if lo ≤ n ∧ n ≤ hi then .ok (pyIntRepr n)
      else .error (.loonError ("Value is outside allowable range: " ++ pyStr v))
    | .boolVal b =>
      if lo ≤ (if b then (1 : Int) else 0) ∧ (if b then (1 : Int) else 0) ≤ hi then
        .ok (pyIntRepr (if b then 1 else 0))
      else .error (.loonError ("Value is outside allowable range: " ++ pyStr v))
    | _ => .error (.typeError "unorderable types")
  | .hexK lo hi =>
    match v with
    | .intVal n =>
      if lo ≤ n ∧ n ≤ hi then .ok (pyHex n)
      else .error (.loonError ("Value is outside allowable range: " ++ pyStr v))
    | _ => .error (.typeError "unorderable types")
  | .dateK =>
    match v with
    | .dateVal d =>
      if 0 ≤ d - dateEPOCH ∧ d - dateEPOCH ≤ 0xffffffff then .ok (pyHex (d - dateEPOCH))
      else .error (.loonError ("Value is outside allowable range: " ++ pyIntRepr (d - dateEPOCH)))
    | _ => .error (.typeError "no attribute utctimetuple")
  | .boolK => .ok (if pyTruthy v then "Y" else "N")
  | .enumK levels =>
    match v with
    | .intVal i =>
      match pyListGet (levels.map Prod.snd) i with
      | some tok => .ok tok
      | none => .error (.loonError ("Unknown/invalid level: " ++ pyStr v))
    | .boolVal b =>
      match pyListGet (levels.map Prod.snd) (if b then 1 else 0) with
      | some tok => .ok tok
      | none => .error (.loonError ("Unknown/invalid level: " ++ pyStr v))
    | .strVal s =>
      match levels.lookup s with
      | some tok => .ok tok
      | none => .error (.loonError ("Unknown/invalid level: " ++ pyStr v))
    | _ => .error (.loonError ("Unknown/invalid level: " ++ pyStr v))
  | .intervalK => intervalPeriodEncode v

/-- The missing-value strip of `Formatter.parse`:
`[x for x in value if x != self.missing]`. -/
def stripMissing (f : Formatter) (vs : List String) : List String :=
  vs.filter (fun x => !(f.missing == some x))

/-- `Formatter.parse`: reject multi-valued groups for non-sequence fields,
strip missing-sentinel values, parse each remaining value, then handle the
empty case — skip fields raise `SkipSignal`, others return `None` — except
that a required sequence falls through and yields its (possibly empty)
list.  Non-sequence fields return their single parsed value
(`result[0]`). -/
def Formatter.parse (f : Formatter) (value : List String) :
    Except PyExc (Option Value) := do
  if !f.sequence && value.length > 1 then
    throw (.loonError "Sequence not allowed.")
  let result := stripMissing f value
  let parsed ← result.mapM (fmtParseOne f)
  if parsed.isEmpty && !(f.sequence && f.required) then
    if f.skip then
      throw (.skipSignal ("Missing " ++ f.name))
    else
      pure none
  else
    if f.sequence then
      pure (some (.listVal parsed))
    else
      match parsed with
      | v :: _ => pure (some v)
      | [] => throw .indexError

/-! ### Record decoding (`parser.py`)

`Parser.__new__` parses the framed lines as flat XML, groups the child
texts by tag (a stable sort by tag followed by `itertools.groupby`), then
walks the schema's `TAGS`, popping each formatter's group out of the data
dict.  `ScaleParser.__new__` post-processes the base result. -/

/-- Parse one flat child element line `<Name>text</Name>` (name alphabetic,
text free of `<`), decoding XML entities in the text as `ElementTree`
does.  Models the element shape `cElementTree` accepts on this wire
(§ spec wire record shape); anything else fails the whole record parse. -/
def parseElemLine (line : String) : Option (String × String) :=
  match line.toList with
  | '<' :: rest =>
    let name := rest.takeWhile isAsciiAlpha
    let rest1 := rest.dropWhile isAsciiAlpha
    if name = [] then none
    else
      match rest1 with
      | '>' :: rest2 =>
        let text := rest2.takeWhile (fun c => c ≠ '<')
        let rest3 := rest2.dropWhile (fun c => c ≠ '<')
        match rest3 with
        | '<' :: '/' :: rest4 =>
          if rest4 = name ++ ['>'] then some (⟨name⟩, ⟨unescapeChars text⟩)
          else none
        | _ => none
      | _ => none
  | _ => none

/-- A start tag `<name>` standing alone, the full-match form of
`start_re = ^<([a-zA-Z]+)>$`; returns the captured name. -/
def startTagName (s : String) : Option String :=
  match s.toList with
  | '<' :: rest =>
    let name := rest.takeWhile isAsciiAlpha
    if name ≠ [] && rest.dropWhile isAsciiAlpha = ['>'] then some ⟨name⟩ else none
  | _ => none

/-- An end tag `</name>` standing alone, the full-match form of
`end_re = ^</([a-zA-Z]+)>$`; returns the captured name. -/
def endTagName (s : String) : Option String :=
  match s.toList with
  | '<' :: '/' :: rest =>
    let name := rest.takeWhile isAsciiAlpha
    if name ≠ [] && rest.dropWhile isAsciiAlpha = ['>'] then some ⟨name⟩ else none
  | _ => none

/-- `Parser._parsexml` composed with the element iteration of
`Parser.__new__`: the buffered lines must form `<Root>`, flat child
elements, `</Root>`; a `ParseError` is re-raised as
`LoonError("Unable to parse response: ...")`. -/
def parseFlatXml (lines : List String) :
    Except PyExc (String × List (String × String)) :=
  match lines with
  | first :: rest =>
    match startTagName first, rest.getLast? with
    | some root, some lastLine =>
      if endTagName lastLine = some root then
        match rest.dropLast.mapM parseElemLine with
        | some pairs => .ok (root, pairs)
        | none => .error (.loonError "Unable to parse response")
      else .error (.loonError "Unable to parse response")
    | _, _ => .error (.loonError "Unable to parse response")
  | [] => .error (.loonError "Unable to parse response")

/-- Code-point comparison of strings, the ordering Python's `sorted` uses
on the ASCII tag names. -/
def charListLe : List Char → List Char → Bool
  | [], _ => true
  | _ :: _, [] => false
  | a :: as, b :: bs =>
    if a.toNat < b.toNat then true
    else if b.toNat < a.toNat then false
    else charListLe as bs

/-- Stable insertion into a key-sorted list: an element goes after every
existing element with a key ≤ its own, preserving encounter order among
equal keys exactly as Python's stable `sorted` does. -/
def insSorted (x : String × String) : List (String × String) → List (String × String)
  | [] => [x]
  | y :: r => if charListLe y.1.toList x.1.toList then y :: insSorted x r else x :: y :: r

/-- Stable sort by tag (`sorted(response, key=lambda x: x.tag)`). -/
def stableSortByTag (pairs : List (String × String)) : List (String × String) :=
  pairs.foldl (fun acc x => insSorted x acc) []

/-- Merge adjacent pairs with equal keys (`itertools.groupby`). -/
def groupAdj : List (String × String) → List (String × List String)
  | [] => []
  | (k, v) :: rest =>
    match groupAdj rest with
    | (k', vs) :: gs => if k = k' then (k, v :: vs) :: gs else (k, [v]) :: (k', vs) :: gs
    | [] => [(k, [v])]

/-- The grouping comprehension of `Parser.__new__`: `fix_text` (strip, with
`None` as the empty string) applied to each text, then the values grouped
under their tag after a stable sort by tag. -/
def groupPairs (pairs : List (String × String)) : List (String × List String) :=
  groupAdj (stableSortByTag (pairs.map (fun p => (p.1, pyStrip p.2))))

/-- `data.pop(name)`: remove and return the group stored under `name`,
or `none` where Python raises `KeyError`. -/
def popData (data : List (String × List String)) (name : String) :
    Option (List String × List (String × List String)) :=
  match data with
  | [] => none
  | (k, vs) :: rest =>
    if k = name then some (vs, rest)
    else
      match popData rest name with
      | some (r, rest') => some (r, (k, vs) :: rest')
      | none => none

/-- `result[name] = value` on the ordered result dict: overwrite in place,
else append. -/
def setResult : List (String × Value) → String → Value → List (String × Value)
  | [], k, v => [(k, v)]
  | (k', v') :: r, k, v =>
    if k' = k then (k, v) :: r else (k', v') :: setResult r k v

/-- The `for formatter in cls.TAGS` loop of `Parser.__new__` followed by the
unparsed-data check: pop each formatter's group (a `KeyError` — from the pop
or from `parse` itself — is a missing value, fatal only when the formatter
is required), re-wrap `LoonError`, let every other exception propagate,
store non-`None` results, and finally fail on leftover grouped names. -/
def processTags : List Formatter → List (String × List String) →
    List (String × Value) → Except PyExc (List (String × Value))
  | [], data, result =>
    if data.isEmpty then .ok result
    else .error (.loonError ("Unparsed data: " ++ String.intercalate ", " (data.map Prod.fst)))
  | f :: rest, data, result =>
    match popData data f.name with
    | none =>
      if f.required then .error (.loonError ("Missing value: " ++ f.name))
      else processTags rest data result
    | some (vs, data') =>
      match f.parse vs with
      | .error .keyError =>
        if f.required then .error (.loonError ("Missing value: " ++ f.name))
        else processTags rest data' result
      | .error (.loonError e) =>
        .error (.loonError ("Unable to process argument: " ++ f.name ++ ": " ++ e))
      | .error e => .error e
      | .ok none => processTags rest data' result
      | .ok (some v) => processTags rest data' (result ++ [(f.name, v)])

/-- A response schema: the `TAGS` formatter list of a `Parser` subclass,
and `NUMBERS` when the subclass is a `ScaleParser`. -/
structure Schema where
  TAGS : List Formatter
  NUMBERS : Option (List String)
deriving Repr

/-- `ScaleParser._scalar`: `float(x) if x else 1.0`. -/
def ScaleParser.scalarQ (x : Value) : Except PyExc ℚ :=
  if pyTruthy x then pyFloat x else pure 1

/-- Left-pad with a character to a width. -/
def padLeftCh (pad : Char) (w : Nat) (s : String) : String :=
  if s.length < w then ⟨List.replicate (w - s.length) pad⟩ ++ s else s

/-- Round to the nearest integer, ties to even, for the fixed-point
rendering of the format mini-language. -/
def qRoundHalfEven (q : ℚ) : Int :=
  let f := ⌊q⌋
  let r := q - f
  if r < 1 / 2 then f
  else if 1 / 2 < r then f + 1
  else if f % 2 = 0 then f else f + 1

/-- The `'{0:{zero}{left}.{right}f}'.format(x).lstrip()` rendering of
`ScaleParser.__new__`: fixed-point with `right` fractional digits, minimum
width `left`, zero padding when `zeroPad` (with the sign ahead of the
zeros); space padding, the alternative, is removed again by the trailing
`lstrip`, so the unpadded form is returned for it. -/
def formatFixed (q : ℚ) (left right : Int) (zeroPad : Bool) : String :=
  let d := right.toNat
  let scaled := qRoundHalfEven (q * (10 ^ d : ℚ))
  let neg := decide (scaled < 0)
  let n := scaled.natAbs
  let core :=
    toString (n / 10 ^ d) ++
      (if d = 0 then "" else "." ++ padLeftCh '0' d (toString (n % 10 ^ d)))
  let w := left.toNat
  if zeroPad then
    if neg then "-" ++ padLeftCh '0' (w - 1) core else padLeftCh '0' w core
  else
    (if neg then "-" else "") ++ core

/-- `result[number]` access, `KeyError` when absent. -/
def getResult (r : List (String × Value)) (k : String) : Except PyExc Value :=
  match r.lookup k with
  | some v => .ok v
  | none => .error .keyError

/-- `result.pop(k)` on the ordered result dict. -/
def popResult (r : List (String × Value)) (k : String) :
    Except PyExc (Value × List (String × Value)) :=
  match r with
  | [] => .error .keyError
  | (k', v) :: rest =>
    if k' = k then .ok (v, rest)
    else
      match popResult rest k with
      | .ok (r', rest') => .ok (r', (k', v) :: rest')
      | .error e => .error e

/-- `ScaleParser.__new__` after the base parse: pop `Divisor` and
`Multiplier` through `_scalar`, pop the three formatting hints, then for
each name in `NUMBERS` multiply the entry by `multiplier / divisor` and,
when the `use_formatting` option is set, replace it with the rendered
text. -/
def ScaleParser.new (NUMBERS : List String) (useFormatting : Bool)
    (result : List (String × Value)) : Except PyExc (List (String × Value)) := do
  let p1 ← popResult result "Divisor"
  let divisor ← ScaleParser.scalarQ p1.1
  let p2 ← popResult p1.2 "Multiplier"
  let multiplier ← ScaleParser.scalarQ p2.1
  let p3 ← popResult p2.2 "DigitsRight"
  let right ← pyToInt p3.1
  let p4 ← popResult p3.2 "DigitsLeft"
  let dleft ← pyToInt p4.1
  let left := dleft + right + 1
  let p5 ← popResult p4.2 "SuppressLeadingZero"
  let zeroPad := !(pyTruthy p5.1)
  NUMBERS.foldlM
    (fun res number => do
      let v ← getResult res number
      let q ← pyFloat v
      let scaled := q * (multiplier / divisor)
      let res' := setResult res number (.ratVal scaled)
      if useFormatting then
        pure (setResult res' number (.strVal (formatFixed scaled left right zeroPad)))
      else
        pure res')
    p5.2

/-- `Parser.__new__` (with the `ScaleParser` override layered on top when
the schema carries `NUMBERS`): XML parse, group, seed the result with
`response_type`, process the schema tags, then optionally rescale. -/
def Parser.new (s : Schema) (useFormatting : Bool) (lines : List String) :
    Except PyExc (List (String × Value)) := do
  let rp ← parseFlatXml lines
  let data := groupPairs rp.2
  let result ← processTags s.TAGS data [("response_type", .strVal rp.1)]
  match s.NUMBERS with
  | none => pure result
  | some nums => ScaleParser.new nums useFormatting result

/-! ### Concrete formatter constructors and schemas

Shorthand for the subclass constructors, spelling out the Python default
arguments (`required=False, missing=None, skip=False, sequence=False`, and
the default ranges of `Integer`/`Hex`/`Date`). -/

/-- `Hex(name, ...)` with an explicit range. -/
def hexF (name : String) (required : Bool) (missing : Option String)
    (skip seq : Bool) (lo hi : Int) : Formatter :=
  ⟨name, required, missing, skip, seq, .hexK lo hi⟩

/-- `Integer(name, ...)` with an explicit range. -/
def intF (name : String) (required : Bool) (lo hi : Int) : Formatter :=
  ⟨name, required, none, false, false, .intK lo hi⟩

/-- `String(name, ...)`. -/
def strF (name : String) (required : Bool) (missing : Option String) : Formatter :=
  ⟨name, required, missing, false, false, .str⟩

/-- `Date(name, ...)` (range fixed at `(0, 0xffffffff)`). -/
def dateF (name : String) (required : Bool) (missing : Option String)
    (skip : Bool) : Formatter :=
  ⟨name, required, missing, skip, false, .dateK⟩

/-- `Boolean(name, ...)`. -/
def boolF (name : String) (required : Bool) : Formatter :=
  ⟨name, required, none, false, false, .boolK⟩

/-- An `Enumeration` subclass instance with its `LEVELS` vocabulary. -/
def enumF (name : String) (required : Bool) (levels : List (String × String)) :
    Formatter :=
  ⟨name, required, none, false, false, .enumK levels⟩

/-- `IntervalPeriod(name, ...)`. -/
def intervalF (name : String) (required : Bool) : Formatter :=
  ⟨name, required, none, false, false, .intervalK⟩

/-- `Status.LEVELS` (the `EnumerationMeta` ordered vocabulary). -/
def statusLEVELS : List (String × String) :=
  [("initializing", "Initializing..."), ("network", "Network"),
   ("joining", "Joining"), ("join_fail", "Join: Fail"),
   ("join_success", "Join: Success"), ("authenticating", "Authenticating"),
   ("auth_success", "Authenticating: Success"),
   ("auth_fail", "Authenticating: Fail"), ("connected", "Connected"),
   ("disconnected", "Disconnected"), ("rejoining", "Rejoining")]

/-- `Event.LEVELS` (bare strings map to themselves). -/
def eventLEVELS : List (String × String) :=
  [("time", "time"), ("price", "price"), ("demand", "demand"),
   ("summation", "summation"), ("message", "message"),
   ("scheduled_prices", "scheduled_prices"), ("profile_data", "profile_data")]

/-- `MeterType.LEVELS`. -/
def meterTypeLEVELS : List (String × String) :=
  [("electric", "0x0000"), ("gas", "0x0001"), ("water", "0x0002"),
   ("thermal", "0x0003"), ("pressure", "0x0004"), ("heat", "0x0005"),
   ("cooling", "0x0006")]

/-- `Queue.LEVELS`. -/
def queueLEVELS : List (String × String) :=
  [("active", "Active"), ("cancel_pending", "Cancel Pending")]

/-- `IntervalChannel.LEVELS`. -/
def intervalChannelLEVELS : List (String × String) :=
  [("delivered", "Delivered"), ("received", "Received")]

/-- The `Warning` response schema. -/
def warningSchema : Schema :=
  ⟨[strF "Text" true none], none⟩

/-- The `TimeCluster` response schema. -/
def timeClusterSchema : Schema :=
  ⟨[hexF "DeviceMacId" true none false false 0 0xffffffffffffffff,
    hexF "MeterMacId" true none false false 0 0xffffffffffffffff,
    dateF "UTCTime" true none false,
    dateF "LocalTime" true none false], none⟩

/-- The `MessageCluster` response schema — note the two descriptors bound
to the wire name `TimeStamp` and the two bound to `Id`. -/
def messageClusterSchema : Schema :=
  ⟨[hexF "DeviceMacId" true none false false 0 0xffffffffffffffff,
    hexF "MeterMacId" true none false false 0 0xffffffffffffffff,
    dateF "TimeStamp" true (some "") true,
    strF "TimeStamp" true none,
    hexF "Id" true none false false 0 0xffffffff,
    strF "Id" true none,
    strF "Text" true none,
    boolF "ConfirmationRequired" true,
    boolF "Confirmed" true,
    enumF "Queue" true queueLEVELS], none⟩

/-- The `ScheduleInfo` response schema. -/
def scheduleInfoSchema : Schema :=
  ⟨[hexF "DeviceMacId" true none false false 0 0xffffffffffffffff,
    hexF "MeterMacId" true (some "0xffffffffffffffff") true false 0 0xffffffffffffffff,
    strF "Mode" true none,
    enumF "Event" false eventLEVELS,
    hexF "Frequency" true none false false 0 0xfffffffe,
    boolF "Enabled" true], none⟩

/-- The `MeterList` response schema. -/
def meterListSchema : Schema :=
  ⟨[hexF "DeviceMacId" true none false false 0 0xffffffffffffffff,
    hexF "MeterMacId" true (some "0xffffffffffffffff") false true 0 0xffffffffffffffff], none⟩

/-- The `ProfileData` response schema. -/
def profileDataSchema : Schema :=
  ⟨[hexF "DeviceMacId" true none false false 0 0xffffffffffffffff,
    hexF "MeterMacId" true none false false 0 0xffffffffffffffff,
    dateF "EndTime" true none false,
    hexF "Status" true none false false 0 0x05,
    intervalF "ProfileIntervalPeriod" true,
    hexF "NumberOfPeriodsDelivered" true none false false 0 0xff,
    hexF "IntervalData" true (some "0xffffff") false true 0 0xffffff], none⟩

/-- The `InstantaneousDemand` response schema (`ScaleParser`,
`NUMBERS = ['Demand']`). -/
def instantaneousDemandSchema : Schema :=
  ⟨[hexF "DeviceMacId" true none false false 0 0xffffffffffffffff,
    hexF "MeterMacId" true none false false 0 0xffffffffffffffff,
    dateF "TimeStamp" true none false,
    hexF "Demand" true none false false 0 0xffffff,
    hexF "Multiplier" true none false false 0 0xffffffff,
    hexF "Divisor" true none false false 0 0xffffffff,
    hexF "DigitsRight" true none false false 0 0xff,
    hexF "DigitsLeft" true none false false 0 0xff,
    boolF "SuppressLeadingZero" true], some ["Demand"]⟩

/-! ### The frame resynchronizer (`Loon._get_responses`)

One iteration of the capture loop, as a state machine over
`collecting`/`buffer` (`start_found`/`response` in the source).  The
observable actions of an iteration — appending a decoded record to
`self.responses`, the `logging` diagnostics — are modelled as `LoopEvent`s;
an exception that no `except` clause of the loop body names aborts the
whole loop (in CPython it kills the daemon thread). -/

/-- The resynchronizer state: `start_found` and the accumulated
`response` buffer. -/
structure LoopState where
  startFound : Bool
  response : List String
deriving Repr

/-- Observable actions of one capture-loop iteration. -/
inductive LoopEvent where
  | captured (rec : List (String × Value))
  | invalid (tag : String)
  | skippedRec (tag : String)
  | unhandled (tag : String)
  | missingStart (buf : List String)
  | missingEnd (buf : List String)

/-- `line.rfind('<')` split into `head, tail = line[:n], line[n:]`,
including the `n = -1` case where `line[:-1]` drops the last character and
`line[-1:]` is the last character. -/
def pyHeadTail (line : String) : String × String :=
  let cs := line.toList
  match (List.range cs.length).filter (fun i => cs.get? i = some '<') |>.getLast? with
  | some n => (⟨cs.take n⟩, ⟨cs.drop n⟩)
  | none => (⟨cs.take (cs.length - 1)⟩, ⟨cs.drop (cs.length - 1)⟩)

/-- The `try parser(response) ...` dispatch of the loop body: a decoded
record is appended to the queue, `LoonError` and `SkipSignal` are caught
and logged, and any other exception propagates out of the loop. -/
def handleDispatch (tag : String) (res : Except PyExc (List (String × Value))) :
    List LoopEvent × Option PyExc :=
  match res with
  | .ok rec => ([.captured rec], none)
  | .error (.loonError _) => ([.invalid tag], none)
  | .error (.skipSignal _) => ([.skippedRec tag], none)
  | .error e => ([], some e)

/-- The trailing `if start:` block: discard a non-empty unfinished buffer
with a missing-end diagnostic and begin collecting from `tail`. -/
def startBlock (start : Option String) (tail : String) (st : LoopState) :
    LoopState × List LoopEvent :=
  match start with
  | none => (st, [])
  | some _ =>
    if st.response.isEmpty then (⟨true, [tail]⟩, [])
    else (⟨true, [tail]⟩, [.missingEnd st.response])

/-- One iteration of `Loon._get_responses` on one stripped line: split at
the last `<`; match `start_re` against `tail` and `end_re` against
`head or tail`; append `head` (under a start) or the whole line to the
buffer; on an end match, dispatch the buffer when collecting (an unknown
tag logs and `continue`s, skipping the start block) or log a missing-start
diagnostic, resetting the state; finally run the start block. -/
def processLine (parsers : List (String × Schema)) (useFormatting : Bool)
    (st : LoopState) (line : String) : LoopState × List LoopEvent × Option PyExc :=
  let ht := pyHeadTail line
  let start := startTagName ht.2
  let endT := endTagName (if ht.1 = "" then ht.2 else ht.1)
  let resp1 :=
    if start.isSome then
      (if ht.1 ≠ "" then st.response ++ [ht.1] else st.response)
    else st.response ++ [line]
  match endT with
  | some tag =>
    if st.startFound then
      match parsers.lookup tag with
      | none => (⟨false, []⟩, [.unhandled tag], none)
      | some schema =>
        match handleDispatch tag (Parser.new schema useFormatting resp1) with
        | (evs, some e) => (⟨false, []⟩, evs, some e)
        | (evs, none) =>
          let sb := startBlock start ht.2 ⟨false, []⟩
          (sb.1, evs ++ sb.2, none)
    else
      let sb := startBlock start ht.2 ⟨false, []⟩
      (sb.1, [.missingStart resp1] ++ sb.2, none)
  | none =>
    let sb := startBlock start ht.2 ⟨st.startFound, resp1⟩
    (sb.1, sb.2, none)

/-- Run the capture loop over a line sequence, collecting the events; an
uncaught exception aborts the loop with the remaining lines unread. -/
def runLines (parsers : List (String × Schema)) (useFormatting : Bool) :
    LoopState → List String → List LoopEvent × Option PyExc × LoopState
  | st, [] => ([], none, st)
  | st, l :: ls =>
    match processLine parsers useFormatting st l with
    | (_, evs, some e) => (evs, some e, ⟨false, []⟩)
    | (st', evs, none) =>
      match runLines parsers useFormatting st' ls with
      | (evs', c, stF) => (evs ++ evs', c, stF)

/-! ### Command encoding (`command.py`)

`Command.__new__` builds an `ElementTree` element tree and serializes it. -/

/-- A leaf element of the command tree (the `Command` element's children
all carry text and no children of their own). -/
structure Elem where
  tag : String
  text : String

/-- Serialize one leaf element, with the text escaping
`ElementTree.tostring` applies. -/
def leafToString (e : Elem) : String :=
  "<" ++ e.tag ++ ">" ++ htmlEscape e.text ++ "</" ++ e.tag ++ ">"

/-- `ElementTree.tostring(command)`: the outer `Command` element wrapping
its serialized children. -/
def commandToString (children : List Elem) : String :=
  "<Command>" ++ String.join (children.map leafToString) ++ "</Command>"

/-- Python dict insertion: overwrite an existing key in place, else
append. -/
def dictInsert (m : List (String × Value)) (k : String) (v : Value) :
    List (String × Value) :=
  match m with
  | [] => [(k, v)]
  | (k', v') :: r => if k' = k then (k, v) :: r else (k', v') :: dictInsert r k v

/-- `{k.lower(): v for k, v in args.items()}`. -/
def lowerKeys (xs : List (String × Value)) : List (String × Value) :=
  xs.foldl (fun m kv => dictInsert m (pyLower kv.1) kv.2) []

/-- The `for formatter in reversed(cls.ARGS)` loop of `Command.__new__`:
each formatter looks its lowercased name up in `args` and prepends the
encoded element, a missing required argument raises `TypeError`; when
`args` is `None` (see `Command.new`), the very first subscript raises
`TypeError`. -/
def buildElems (argsOpt : Option (List (String × Value))) :
    List Formatter → Except PyExc (List Elem)
  | [] => .ok []
  | fs =>
    fs.reverse.foldlM
      (fun acc f => do
        match argsOpt with
        | none => throw (.typeError "argument of type NoneType is unsubscriptable")
        | some args =>
          match args.lookup (pyLower f.name) with
          | none =>
            if f.required then
              throw (.typeError ("Missing keyword argument: " ++ f.name))
            else
              pure acc
          | some v => do
            let text ← fmtEncode f v
            pure (Elem.mk f.name text :: acc))
      []

/-- `Command.__new__`: lowercase the provided keyword arguments; when a
`loon` was passed and its defaults dict is non-empty, the source executes
`args = args.update(...)` — `dict.update` returns `None`, so `args`
becomes `None` (modelled as the `argsOpt = none` state); then build the
field elements, prepend the `Name` element, and serialize. -/
def Command.new (ARGS : List Formatter) (clsName : String)
    (loon : Option (List (String × Value))) (args0 : List (String × Value)) :
    Except PyExc String := do
  let args := lowerKeys args0
  let argsOpt : Option (List (String × Value)) :=
    match loon with
    | some defaults => if defaults.isEmpty then some args else none
    | none => some args
  let elems ← buildElems argsOpt ARGS
  pure (commandToString (Elem.mk "Name" clsName :: elems))

/-- The command methods `LoonMeta` installs on `Loon` call
`command(defaults=self.defaults, **args)`: the defaults dict is passed as
the keyword argument `defaults`, which does not match the `loon` parameter
of `Command.__new__` and lands in `**args` instead, so `loon` stays `None`
and the defaults are never merged. -/
def commandMethodCall (ARGS : List Formatter) (clsName : String)
    (defaults : List (String × Value)) (args : List (String × Value)) :
    Except PyExc String :=
  Command.new ARGS clsName none ([("defaults", .dictVal defaults)] ++ args)

/-- `get_meter_info.ARGS`. -/
def getMeterInfoARGS : List Formatter :=
  [hexF "MeterMacId" false none false false 0 0xffffffffffffffff]

/-! ### The options/defaults accessors (`Loon.options`, `Loon.defaults`,
`Node.copy`)

Python aliasing is made explicit through a heap of mapping objects indexed
by references.  `Loon` holds references to its `_options` `Node` and its
`_defaults` dict; the `options`/`defaults` properties return
`self._options.copy()` / `self._defaults.copy()` — a freshly allocated
object holding the same entries (`Node.copy` copies sub-`Node`s
recursively; the option and default values here are immutable scalars, for
which `Node.copy` and `dict.copy` coincide with an entry copy). -/

/-- A heap of mapping objects: the next fresh reference and the store. -/
structure Heap where
  next : Nat
  mem : List (Nat × List (String × Value))

/-- Dereference a mapping object. -/
def Heap.read (h : Heap) (r : Nat) : List (String × Value) :=
  match h.mem.lookup r with
  | some m => m
  | none => []

/-- Allocate a fresh mapping object. -/
def Heap.alloc (h : Heap) (m : List (String × Value)) : Heap × Nat :=
  ({ next := h.next + 1, mem := (h.next, m) :: h.mem }, h.next)

/-- Overwrite the mapping object behind a reference. -/
def Heap.write (h : Heap) (r : Nat) (m : List (String × Value)) : Heap :=
  { next := h.next, mem := h.mem.map (fun p => if p.1 = r then (r, m) else p) }

/-- A caller-side mutation of a mapping object: set or delete a key. -/
inductive MutOp where
  | set (k : String) (v : Value)
  | del (k : String)

/-- Apply one mutation to mapping contents. -/
def applyMut (m : List (String × Value)) : MutOp → List (String × Value)
  | .set k v => setResult m k v
  | .del k => m.filter (fun p => p.1 ≠ k)

/-- Mutate the object behind a reference, in place, one operation after
another. -/
def mutateRef (h : Heap) (r : Nat) (ops : List MutOp) : Heap :=
  ops.foldl (fun h' op => h'.write r (applyMut (h'.read r) op)) h

/-- The `options` property: `return self._options.copy()` — allocate a
fresh object holding the entries of the engine's options object. -/
def Loon.optionsProp (h : Heap) (optionsRef : Nat) : Heap × Nat :=
  h.alloc (h.read optionsRef)

/-- The `defaults` property: `return self._defaults.copy()`. -/
def Loon.defaultsProp (h : Heap) (defaultsRef : Nat) : Heap × Nat :=
  h.alloc (h.read defaultsRef)

/-! ### Helper lemmas -/

/-- Monadic bind on a successful `Except` computation. -/
@[simp] theorem exceptBind_ok {ε α β : Type} (a : α) (f : α → Except ε β) :
    ((Except.ok a : Except ε α) >>= f) = f a := rfl

/-- Monadic bind on a failed `Except` computation. -/
@[simp] theorem exceptBind_error {ε α β : Type} (e : ε) (f : α → Except ε β) :
    ((Except.error e : Except ε α) >>= f) = Except.error e := rfl

/-- Functorial map on a successful `Except` computation. -/
@[simp] theorem exceptMap_ok {ε α β : Type} (g : α → β) (a : α) :
    (g <$> (Except.ok a : Except ε α)) = Except.ok (g a) := rfl

/-- `pure` in the `Except` monad is `Except.ok`. -/
@[simp] theorem exceptPure_eq_ok {ε α : Type} (a : α) :
    (pure a : Except ε α) = Except.ok a := rfl

/-- Stripping a group whose every value equals the missing sentinel leaves
nothing. -/
theorem stripMissing_all (f : Formatter) (vs : List String)
    (h : ∀ x ∈ vs, f.missing = some x) : stripMissing f vs = [] := by
  simp only [stripMissing, List.filter_eq_nil_iff]
  intro x hx
  simp [h x hx]

/-- `Formatter.parse` on a group that strips to empty: a required sequence
yields the empty list, a skip field raises `SkipSignal`, anything else
returns `None`. -/
theorem parse_stripped_empty (f : Formatter) (vs : List String)
    (hall : ∀ x ∈ vs, f.missing = some x)
    (hlen : f.sequence = false → vs.length ≤ 1) :
    f.parse vs =
      if f.sequence && f.required then .ok (some (.listVal []))
      else if f.skip then .error (.skipSignal ("Missing " ++ f.name))
      else .ok none := by
  have hs := stripMissing_all f vs hall
  unfold Formatter.parse
  rcases hseq : f.sequence with _ | _
  · have hl : ¬(vs.length > 1) := by
      have := hlen hseq
      omega
    simp [hseq, hl, hs, List.mapM.loop, pure_bind]
    rfl
  · simp [hseq, hs, List.mapM.loop, pure_bind]
    rcases hreq : f.required with _ | _ <;> simp [map_pure, pure_bind]
    all_goals rfl

/-- Looking a key up is unaffected by overwriting the entries of a
different key. -/
theorem lookup_write_ne (l : List (Nat × List (String × Value)))
    (r r' : Nat) (m : List (String × Value)) (hne : r ≠ r') :
    List.lookup r (l.map fun p => if p.1 = r' then (r', m) else p) =
      List.lookup r l := by
  induction l with
  | nil => rfl
  | cons p t ih =>
    obtain ⟨k, v⟩ := p
    by_cases hp : k = r'
    · subst hp
      have hred : (if ((k, v) : Nat × List (String × Value)).1 = k
          then ((k, m) : Nat × List (String × Value)) else (k, v)) = (k, m) :=
        if_pos rfl
      rw [List.map_cons, hred, List.lookup_cons, List.lookup_cons]
      have h1 : (r == k) = false := by simp [hne]
      rw [h1, ih]
    · have hred : (if ((k, v) : Nat × List (String × Value)).1 = r'
          then ((r', m) : Nat × List (String × Value)) else (k, v)) = (k, v) :=
        if_neg hp
      rw [List.map_cons, hred, List.lookup_cons, List.lookup_cons]
      rcases hrk : (r == k) with _ | _ <;> simp [ih]

/-- Reading another reference is unaffected by a heap write. -/
theorem Heap.read_write_ne (h : Heap) (r r' : Nat)
    (m : List (String × Value)) (hne : r ≠ r') :
    (h.write r' m).read r = h.read r := by
  unfold Heap.read Heap.write
  rw [lookup_write_ne _ _ _ _ hne]

/-- Reading another reference is unaffected by a mutation sequence. -/
theorem mutateRef_read_ne (ops : List MutOp) (h : Heap) (r r' : Nat)
    (hne : r ≠ r') : (mutateRef h r' ops).read r = h.read r := by
  induction ops generalizing h with
  | nil => rfl
  | cons op t ih =>
    show (mutateRef (h.write r' (applyMut (h.read r') op)) r' t).read r = _
    rw [ih, Heap.read_write_ne _ _ _ _ hne]

/-- A fresh allocation reads back its contents. -/
theorem Heap.read_alloc_self (h : Heap) (m : List (String × Value)) :
    (h.alloc m).1.read (h.alloc m).2 = m := by
  simp [Heap.alloc, Heap.read, List.lookup]

/-- A fresh allocation leaves other references unchanged. -/
theorem Heap.read_alloc_ne (h : Heap) (m : List (String × Value)) (r : Nat)
    (hne : r ≠ h.next) : (h.alloc m).1.read r = h.read r := by
  have : (r == h.next) = false := by simp [hne]
  simp [Heap.alloc, Heap.read, List.lookup, this]

/-! ### Claim theorems -/

/-- **C1** (code_bug evidence).  A record whose `Hex` field carries
non-hexadecimal text does not fail with a contained `MalformedValue`
(`LoonError`): `Hex._parse` raises a bare `ValueError`, which neither
`Parser.__new__` (`except KeyError`, `except LoonError`) nor the capture
loop (`except LoonError`, `except SkipSignal`) catches.  First conjunct:
a well-formed `TimeCluster` record alone is captured.  Second conjunct:
the same well-formed record preceded by a record with `DeviceMacId`
text `zz` is never decoded — the loop aborts with the `ValueError`
(killing the capture thread), emitting no events at all. -/
theorem badHexKillsCaptureLoop :
    runLines [("TimeCluster", timeClusterSchema)] true ⟨false, []⟩
        ["<TimeCluster>", "<DeviceMacId>0x1</DeviceMacId>",
         "<MeterMacId>0x2</MeterMacId>", "<UTCTime>0x0</UTCTime>",
         "<LocalTime>0x0</LocalTime>", "</TimeCluster>"] =
      ([.captured [("response_type", .strVal "TimeCluster"),
                   ("DeviceMacId", .intVal 1), ("MeterMacId", .intVal 2),
                   ("UTCTime", .dateVal 946684800),
                   ("LocalTime", .dateVal 946684800)]],
       none, ⟨false, []⟩) ∧
    runLines [("TimeCluster", timeClusterSchema)] true ⟨false, []⟩
        (["<TimeCluster>", "<DeviceMacId>zz</DeviceMacId>", "</TimeCluster>"] ++
         ["<TimeCluster>", "<DeviceMacId>0x1</DeviceMacId>",
          "<MeterMacId>0x2</MeterMacId>", "<UTCTime>0x0</UTCTime>",
          "<LocalTime>0x0</LocalTime>", "</TimeCluster>"]) =
      ([], some .valueError, ⟨false, []⟩) :=
  ⟨rfl, rfl⟩

/-- **C2** (code_bug evidence).  `IntervalPeriod.encode` calls `.index` on
the `INTERVALS` `OrderedDict`, which has no such attribute, so encoding
any interval raises `AttributeError`; in particular
`decode(encode(86400))` — 86400 is the first entry of the interval
table — cannot round-trip. -/
theorem intervalPeriodEncodeAlwaysRaises :
    (∀ n : Int, intervalPeriodEncode (.intVal n) = .error .attributeError) ∧
    (intervalPeriodEncode (.intVal 86400) >>=
        fmtParseOne (intervalF "ProfileIntervalPeriod" true)) =
      .error .attributeError :=
  ⟨fun _ => rfl, rfl⟩

/-- **C3** (counterexample).  From `collecting = true` with buffer
`["<A>"]`, the lines `"<X>1</X></A>"` and `"<B>"` do NOT emit a record
with tag `A`: the end pattern is matched against the head `"<X>1</X>"`
as a whole string and fails, so the first line is buffered; the start
tag `<B>` then discards the buffer with a missing-end diagnostic.  The
run produces zero records, contradicting the claimed single record
`A`. -/
theorem endTagSharedLineCex :
    runLines [("A", warningSchema), ("B", warningSchema)] true ⟨true, ["<A>"]⟩
        ["<X>1</X></A>", "<B>"] =
      ([.missingEnd ["<A>", "<X>1</X></A>"]], none, ⟨true, ["<B>"]⟩) :=
  rfl

/-- **C4** (counterexample).  A complete `MessageCluster` record that
supplies every scheduled wire name fails to decode: the `Date` descriptor
for `TimeStamp` pops the grouped values, so the second (`String`)
descriptor for `TimeStamp` finds the name absent and, being required,
raises `LoonError("Missing value: TimeStamp")` — the second descriptor
does not see the values. -/
theorem duplicateNameSecondDescriptorMissingCex :
    Parser.new messageClusterSchema true
        ["<MessageCluster>", "<DeviceMacId>0x1</DeviceMacId>",
         "<MeterMacId>0x2</MeterMacId>", "<TimeStamp>0x0</TimeStamp>",
         "<Id>0x1</Id>", "<Text>hi</Text>",
         "<ConfirmationRequired>N</ConfirmationRequired>",
         "<Confirmed>Y</Confirmed>", "<Queue>Active</Queue>",
         "</MessageCluster>"] =
      .error (.loonError "Missing value: TimeStamp") :=
  rfl

/-- **C5** (code_bug evidence).  First conjunct: calling
`Command.__new__` with a loon whose defaults dict is non-empty crashes
with a `TypeError` — `args = args.update(...)` leaves `args` as `None`,
which the first argument lookup then subscripts — instead of performing
any merge.  Second conjunct: through the command methods `LoonMeta`
generates, the defaults dict is passed as the keyword argument
`defaults` (landing in `**args`, not in the `loon` parameter), so a
`get_meter_info` with a `MeterMacId` default emits no `MeterMacId`
element at all: the defaults are silently ignored, not merged. -/
theorem defaultsNeverMerged :
    Command.new getMeterInfoARGS "get_meter_info"
        (some [("MeterMacId", .intVal 1)]) [] =
      .error (.typeError "argument of type NoneType is unsubscriptable") ∧
    commandMethodCall getMeterInfoARGS "get_meter_info"
        [("MeterMacId", .intVal 1)] [] =
      .ok "<Command><Name>get_meter_info</Name></Command>" :=
  ⟨rfl, rfl⟩

/-- **C6** (code_bug evidence).  Decoding the `Status` token
`"Connected"` yields the ordinal 8 — the value of the generated symbolic
constant `Status.CONNECTED` — but decoding the out-of-vocabulary token
`"zzz"` raises a bare `ValueError` (`list.index` raises `ValueError`,
which the `except IndexError` clause of `Enumeration._parse` does not
catch), not the `LoonError` UnknownVariant failure the claim states. -/
theorem enumUnknownTokenRaisesValueError :
    fmtParseOne (enumF "Status" true statusLEVELS) "Connected" =
      .ok (.intVal 8) ∧
    fmtParseOne (enumF "Status" true statusLEVELS) "zzz" =
      .error .valueError :=
  ⟨rfl, rfl⟩

/-- **C7** (counterexample).  A `ProfileData` record whose required
sequence field `IntervalData` carries only the missing sentinel
`0xffffff` does not fail with MissingField: decoding succeeds and the
field is stored as an empty list. -/
theorem requiredSequenceEmptyListCex :
    Parser.new profileDataSchema true
        ["<ProfileData>", "<DeviceMacId>0x1</DeviceMacId>",
         "<MeterMacId>0x2</MeterMacId>", "<EndTime>0x0</EndTime>",
         "<Status>0x0</Status>",
         "<ProfileIntervalPeriod>1</ProfileIntervalPeriod>",
         "<NumberOfPeriodsDelivered>0x1</NumberOfPeriodsDelivered>",
         "<IntervalData>0xffffff</IntervalData>", "</ProfileData>"] =
      .ok [("response_type", .strVal "ProfileData"),
           ("DeviceMacId", .intVal 1), ("MeterMacId", .intVal 2),
           ("EndTime", .dateVal 946684800), ("Status", .intVal 0),
           ("ProfileIntervalPeriod", .intVal 3600),
           ("NumberOfPeriodsDelivered", .intVal 1),
           ("IntervalData", .listVal [])] :=
  rfl

/-- **C3** (amended).  From `collecting = true` with any pending buffer,
consuming `"<X>1</X></A>"` then `"<B>"` emits no record: the end-tag
pattern is matched against the head `"<X>1</X>"` (a whole-string match
that fails), so the first line is buffered whole; the `<B>` start then
discards the buffer with one missing-end diagnostic and begins
collecting `["<B>"]`. -/
theorem endTagSharedLineDiscards (buf : List String) :
    runLines [("A", warningSchema), ("B", warningSchema)] true ⟨true, buf⟩
        ["<X>1</X></A>", "<B>"] =
      ([.missingEnd (buf ++ ["<X>1</X></A>"])], none, ⟨true, ["<B>"]⟩) := by
  have h1 : pyHeadTail "<X>1</X></A>" = ("<X>1</X>", "</A>") := rfl
  have h2 : pyHeadTail "<B>" = ("", "<B>") := rfl
  have h3 : startTagName "</A>" = none := rfl
  have h4 : endTagName "<X>1</X>" = none := rfl
  have h5 : startTagName "<B>" = some "B" := rfl
  have h6 : endTagName "<B>" = none := rfl
  simp [runLines, processLine, h1, h2, h3, h4, h5, h6, startBlock]

/-- Witness for `endTagSharedLineDiscards` with the pending buffer
`["<A>"]` of a record opened by `<A>`. -/
theorem endTagSharedLineDiscardsWitness :
    runLines [("A", warningSchema), ("B", warningSchema)] true ⟨true, ["<A>"]⟩
        ["<X>1</X></A>", "<B>"] =
      ([.missingEnd (["<A>"] ++ ["<X>1</X></A>"])], none, ⟨true, ["<B>"]⟩) :=
  endTagSharedLineDiscards ["<A>"]

/-- **C4** (amended).  When a schema lists two descriptors bound to the
same wire name, decode binds the collected values only to the first:
`data.pop(name)` consumes the group, so the second descriptor's pop
raises `KeyError` and, the descriptor being required, the record fails
with `LoonError("Missing value: <name>")` — as `MessageCluster`'s
duplicate `TimeStamp`/`Id` descriptors do. -/
theorem duplicateNameSecondDescriptorFails (f1 f2 : Formatter)
    (vs : List String) (r : Option Value) (res : List (String × Value))
    (hname : f2.name = f1.name) (hreq : f2.required = true)
    (hparse : f1.parse vs = .ok r) :
    processTags [f1, f2] [(f1.name, vs)] res =
      .error (.loonError ("Missing value: " ++ f2.name)) := by
  cases r <;> simp [processTags, popData, hparse, hreq, hname]

/-- Witness for `duplicateNameSecondDescriptorFails` at the
`MessageCluster` `TimeStamp` descriptors with wire text `0x0`. -/
theorem duplicateNameSecondDescriptorFailsWitness :
    processTags
        [dateF "TimeStamp" true (some "") true, strF "TimeStamp" true none]
        [("TimeStamp", ["0x0"])] [] =
      .error (.loonError "Missing value: TimeStamp") :=
  duplicateNameSecondDescriptorFails
    (dateF "TimeStamp" true (some "") true) (strF "TimeStamp" true none)
    ["0x0"] (some (.dateVal 946684800)) [] rfl rfl rfl

/-- **C7** (amended).  For a field whose collected group strips to empty
and whose `skip` is false: if `sequence` and `required` are both true,
decoding succeeds and the field is stored as an empty list; if not both,
the field is entirely absent from the result; and the
`required`-without-`sequence` case cannot reach this state at all, since
the constructor invariant forbids a required non-skip non-sequence field
from carrying a missing sentinel. -/
theorem emptyGroupRequiredSequenceStoresEmptyList (f : Formatter)
    (vs : List String) (res : List (String × Value))
    (hvalid : f.valid) (hvs : vs ≠ [])
    (hall : ∀ x ∈ vs, f.missing = some x) (hskip : f.skip = false)
    (hlen : f.sequence = false → vs.length ≤ 1) :
    (f.sequence = true → f.required = true →
      processTags [f] [(f.name, vs)] res = .ok (res ++ [(f.name, .listVal [])])) ∧
    (¬(f.sequence = true ∧ f.required = true) →
      processTags [f] [(f.name, vs)] res = .ok res) ∧
    (f.required = true → f.sequence = true) := by
  have hparse := parse_stripped_empty f vs hall hlen
  refine ⟨?_, ?_, ?_⟩
  · intro hseq hreq
    simp [hseq, hreq] at hparse
    simp [processTags, popData, hparse]
  · intro hnotboth
    have hcond : (f.sequence && f.required) = false := by
      cases hs : f.sequence <;> cases hr : f.required <;> simp_all
    simp [hcond, hskip] at hparse
    simp [processTags, popData, hparse]
  · intro hreq
    obtain ⟨x, hx⟩ := List.exists_mem_of_ne_nil vs hvs
    have hms : f.missing.isSome := by rw [hall x hx]; rfl
    rcases hvalid.1 hreq hms with hsk | hsq
    · rw [hskip] at hsk
      exact absurd hsk (by simp)
    · exact hsq

/-- Witness for `emptyGroupRequiredSequenceStoresEmptyList` at the
`ProfileData` `IntervalData` descriptor on its all-sentinel group. -/
theorem emptyGroupRequiredSequenceWitness :
    processTags [hexF "IntervalData" true (some "0xffffff") false true 0 0xffffff]
        [("IntervalData", ["0xffffff"])] [] =
      .ok [("IntervalData", .listVal [])] :=
  (emptyGroupRequiredSequenceStoresEmptyList
      (hexF "IntervalData" true (some "0xffffff") false true 0 0xffffff)
      ["0xffffff"] []
      ⟨fun _ _ => Or.inr rfl, fun hh => nomatch hh⟩
      (by simp) (by decide) rfl (fun hh => nomatch hh)).1 rfl rfl

/-- **C8**.  A skip-configured field (as every skip field of this
package's schemas, none of which is a required sequence) whose group
carries only the missing sentinel raises `SkipSignal`: the record-level
tag processing propagates it unchanged, and the capture loop's
`except SkipSignal` handler logs it without appending anything to the
response queue and without treating it as an error. -/
theorem skipOnMissingYieldsSkip (f : Formatter) (vs : List String)
    (hskip : f.skip = true)
    (hnotreq : f.sequence = true → f.required = false)
    (hall : ∀ x ∈ vs, f.missing = some x)
    (hlen : f.sequence = false → vs.length ≤ 1) :
    f.parse vs = .error (.skipSignal ("Missing " ++ f.name)) ∧
    (∀ (rest : List Formatter) (data : List (String × List String))
        (res : List (String × Value)),
      processTags (f :: rest) ((f.name, vs) :: data) res =
        .error (.skipSignal ("Missing " ++ f.name))) ∧
    (∀ tag s, handleDispatch tag (.error (.skipSignal s)) =
      ([.skippedRec tag], none)) := by
  have hcond : (f.sequence && f.required) = false := by
    cases hs : f.sequence
    · simp
    · simp [hnotreq hs]
  have hparse := parse_stripped_empty f vs hall hlen
  simp [hcond, hskip] at hparse
  refine ⟨hparse, ?_, fun tag s => rfl⟩
  intro rest data res
  simp [processTags, popData, hparse]

/-- Witness for `skipOnMissingYieldsSkip` at the `ScheduleInfo`
`MeterMacId` descriptor on its all-sentinel group. -/
theorem skipOnMissingYieldsSkipWitness :
    Formatter.parse
        (hexF "MeterMacId" true (some "0xffffffffffffffff") true false 0 0xffffffffffffffff)
        ["0xffffffffffffffff"] =
      .error (.skipSignal "Missing MeterMacId") ∧
    handleDispatch "ScheduleInfo" (.error (.skipSignal "Missing MeterMacId")) =
      ([.skippedRec "ScheduleInfo"], none) :=
  ⟨(skipOnMissingYieldsSkip
      (hexF "MeterMacId" true (some "0xffffffffffffffff") true false 0 0xffffffffffffffff)
      ["0xffffffffffffffff"] rfl (fun hh => nomatch hh) (by decide)
      (fun _ => by decide)).1,
   (skipOnMissingYieldsSkip
      (hexF "MeterMacId" true (some "0xffffffffffffffff") true false 0 0xffffffffffffffff)
      ["0xffffffffffffffff"] rfl (fun hh => nomatch hh) (by decide)
      (fun _ => by decide)).2.2 "ScheduleInfo" "Missing MeterMacId"⟩

/-- **C9**.  In the `ScaleParser` scaling extension, `_scalar` maps a wire
value of 0 to 1.0 (first conjunct), never produces a zero scalar — so the
`multiplier / divisor` rescale never divides by zero (second conjunct) —
and an `InstantaneousDemand`-shaped record whose `Multiplier` and
`Divisor` are both 0 leaves the `Demand` value numerically unchanged
(third conjunct; Python converts the int to an equal float, modelled as
the rational `v`). -/
theorem scalingZeroBehavesAsOne (a b c d : Value) (v dr dl : Int) (z : Bool) :
    ScaleParser.scalarQ (.intVal 0) = .ok 1 ∧
    (∀ m : Int, ∃ q : ℚ, ScaleParser.scalarQ (.intVal m) = .ok q ∧ q ≠ 0) ∧
    ScaleParser.new ["Demand"] false
        [("response_type", a), ("DeviceMacId", b), ("MeterMacId", c),
         ("TimeStamp", d), ("Demand", .intVal v),
         ("Multiplier", .intVal 0), ("Divisor", .intVal 0),
         ("DigitsRight", .intVal dr), ("DigitsLeft", .intVal dl),
         ("SuppressLeadingZero", .boolVal z)] =
      .ok [("response_type", a), ("DeviceMacId", b), ("MeterMacId", c),
           ("TimeStamp", d), ("Demand", .ratVal (v : ℚ))] := by
  refine ⟨rfl, ?_, ?_⟩
  · intro m
    by_cases hm : m = 0
    · exact ⟨1, by subst hm; rfl, one_ne_zero⟩
    · refine ⟨(m : ℚ), ?_, by exact_mod_cast hm⟩
      simp [ScaleParser.scalarQ, pyTruthy, pyFloat, hm]
  · simp [ScaleParser.new, popResult, ScaleParser.scalarQ, pyTruthy, pyFloat,
      pyToInt, getResult, setResult, List.lookup, List.foldlM]

/-- Witness for `scalingZeroBehavesAsOne` on a concrete
`InstantaneousDemand` result record with `Demand = 100`. -/
theorem scalingZeroBehavesAsOneWitness :
    ScaleParser.scalarQ (.intVal 0) = .ok 1 ∧
    (∀ m : Int, ∃ q : ℚ, ScaleParser.scalarQ (.intVal m) = .ok q ∧ q ≠ 0) ∧
    ScaleParser.new ["Demand"] false
        [("response_type", .strVal "InstantaneousDemand"),
         ("DeviceMacId", .intVal 1), ("MeterMacId", .intVal 2),
         ("TimeStamp", .dateVal 946684800), ("Demand", .intVal 100),
         ("Multiplier", .intVal 0), ("Divisor", .intVal 0),
         ("DigitsRight", .intVal 3), ("DigitsLeft", .intVal 6),
         ("SuppressLeadingZero", .boolVal false)] =
      .ok [("response_type", .strVal "InstantaneousDemand"),
           ("DeviceMacId", .intVal 1), ("MeterMacId", .intVal 2),
           ("TimeStamp", .dateVal 946684800),
           ("Demand", .ratVal (100 : ℚ))] :=
  scalingZeroBehavesAsOne (.strVal "InstantaneousDemand") (.intVal 1)
    (.intVal 2) (.dateVal 946684800) 100 3 6 false

/-- **C10**.  The `options` and `defaults` properties return freshly
allocated copies of the engine's mappings: each copy reads back the
engine's entries, and after any sequence of caller mutations applied
through the two returned references, reading the engine's own options
and defaults references yields exactly the original contents. -/
theorem optionsDefaultsReturnIsolatedCopies (h : Heap) (oRef dRef : Nat)
    (ho : oRef < h.next) (hd : dRef < h.next) (ops1 ops2 : List MutOp) :
    ((Loon.optionsProp h oRef).1.read (Loon.optionsProp h oRef).2 =
      h.read oRef) ∧
    ((Loon.defaultsProp (Loon.optionsProp h oRef).1 dRef).1.read
        (Loon.defaultsProp (Loon.optionsProp h oRef).1 dRef).2 =
      h.read dRef) ∧
    ((mutateRef (mutateRef (Loon.defaultsProp (Loon.optionsProp h oRef).1 dRef).1
          (Loon.optionsProp h oRef).2 ops1)
        (Loon.defaultsProp (Loon.optionsProp h oRef).1 dRef).2 ops2).read oRef =
      h.read oRef) ∧
    ((mutateRef (mutateRef (Loon.defaultsProp (Loon.optionsProp h oRef).1 dRef).1
          (Loon.optionsProp h oRef).2 ops1)
        (Loon.defaultsProp (Loon.optionsProp h oRef).1 dRef).2 ops2).read dRef =
      h.read dRef) := by
  have hod : oRef ≠ h.next := Nat.ne_of_lt ho
  have hdd : dRef ≠ h.next := Nat.ne_of_lt hd
  have hod1 : oRef ≠ h.next + 1 := by omega
  have hdd1 : dRef ≠ h.next + 1 := by omega
  refine ⟨Heap.read_alloc_self _ _, ?_, ?_, ?_⟩
  · exact (Heap.read_alloc_self _ _).trans (Heap.read_alloc_ne h _ dRef hdd)
  · exact (mutateRef_read_ne ops2 _ oRef _ hod1).trans
      ((mutateRef_read_ne ops1 _ oRef _ hod).trans
        ((Heap.read_alloc_ne _ _ oRef hod1).trans (Heap.read_alloc_ne h _ oRef hod)))
  · exact (mutateRef_read_ne ops2 _ dRef _ hdd1).trans
      ((mutateRef_read_ne ops1 _ dRef _ hdd).trans
        ((Heap.read_alloc_ne _ _ dRef hdd1).trans (Heap.read_alloc_ne h _ dRef hdd)))

/-- Witness for `optionsDefaultsReturnIsolatedCopies` on a two-object
heap, setting `use_formatting` through the returned options copy and
deleting `MeterMacId` through the returned defaults copy. -/
theorem optionsDefaultsCopyWitness :
    ((Loon.optionsProp
        ⟨2, [(0, [("use_formatting", .boolVal true)]),
             (1, [("MeterMacId", .intVal 1)])]⟩ 0).1.read
      (Loon.optionsProp
        ⟨2, [(0, [("use_formatting", .boolVal true)]),
             (1, [("MeterMacId", .intVal 1)])]⟩ 0).2 =
      Heap.read ⟨2, [(0, [("use_formatting", .boolVal true)]),
                     (1, [("MeterMacId", .intVal 1)])]⟩ 0) ∧
    ((Loon.defaultsProp (Loon.optionsProp
        ⟨2, [(0, [("use_formatting", .boolVal true)]),
             (1, [("MeterMacId", .intVal 1)])]⟩ 0).1 1).1.read
      (Loon.defaultsProp (Loon.optionsProp
        ⟨2, [(0, [("use_formatting", .boolVal true)]),
             (1, [("MeterMacId", .intVal 1)])]⟩ 0).1 1).2 =
      Heap.read ⟨2, [(0, [("use_formatting", .boolVal true)]),
                     (1, [("MeterMacId", .intVal 1)])]⟩ 1) ∧
    ((mutateRef (mutateRef (Loon.defaultsProp (Loon.optionsProp
          ⟨2, [(0, [("use_formatting", .boolVal true)]),
               (1, [("MeterMacId", .intVal 1)])]⟩ 0).1 1).1
          (Loon.optionsProp
            ⟨2, [(0, [("use_formatting", .boolVal true)]),
                 (1, [("MeterMacId", .intVal 1)])]⟩ 0).2
          [.set "use_formatting" (.boolVal false)])
        (Loon.defaultsProp (Loon.optionsProp
          ⟨2, [(0, [("use_formatting", .boolVal true)]),
               (1, [("MeterMacId", .intVal 1)])]⟩ 0).1 1).2
        [.del "MeterMacId"]).read 0 =
      Heap.read ⟨2, [(0, [("use_formatting", .boolVal true)]),
                     (1, [("MeterMacId", .intVal 1)])]⟩ 0) ∧
    ((mutateRef (mutateRef (Loon.defaultsProp (Loon.optionsProp
          ⟨2, [(0, [("use_formatting", .boolVal true)]),
               (1, [("MeterMacId", .intVal 1)])]⟩ 0).1 1).1
          (Loon.optionsProp
            ⟨2, [(0, [("use_formatting", .boolVal true)]),
                 (1, [("MeterMacId", .intVal 1)])]⟩ 0).2
          [.set "use_formatting" (.boolVal false)])
        (Loon.defaultsProp (Loon.optionsProp
          ⟨2, [(0, [("use_formatting", .boolVal true)]),
               (1, [("MeterMacId", .intVal 1)])]⟩ 0).1 1).2
        [.del "MeterMacId"]).read 1 =
      Heap.read ⟨2, [(0, [("use_formatting", .boolVal true)]),
                     (1, [("MeterMacId", .intVal 1)])]⟩ 1) :=
  optionsDefaultsReturnIsolatedCopies
    ⟨2, [(0, [("use_formatting", .boolVal true)]),
         (1, [("MeterMacId", .intVal 1)])]⟩ 0 1
    (by decide) (by decide)
    [.set "use_formatting" (.boolVal false)] [.del "MeterMacId"]

end LoonSpec
